import Mathlib

/-
Verification of the concurrent loan-file store of the mortgage_with_multi_agent
repository, against its natural-language specification.

The Lean definitions below are a shallow embedding of the Python sources:

  * src/loan_underwriter/models.py          (LoanFile, add_audit_entry, update_status)
  * src/loan_underwriter/file_manager.py    (LoanFileManager: _rotate_audit_trail,
                                             _create_backup, save_loan_file, load_loan_file)
  * src/loan_underwriter/tools_loan_processor.py
                                            (verify_loan_documents, order_credit_report,
                                             and the lock / external-call shape of every
                                             task operation)
  * resources/loan_underwriter/task_coordinator.py
                                            (Task, get_concurrent_tasks,
                                             execute_concurrent_tasks)

Python datetimes are modelled as abstract Nat timestamps supplied by the caller
(datetime.now() becomes an explicit argument), uuid.uuid4() hex fragments become
explicit String arguments, and the file system becomes an explicit record of
association lists keyed by loan number.  Decimal appears nowhere in the verified
claims, so monetary fields are omitted from the record model.
-/

/-! ## Data model (models.py) -/

/-- One audit-trail entry (models.py class AuditTrail): timestamp, actor, action,
details, status_before, status_after.  The metadata dict defaults to empty and is
never read by the verified code paths, so it is omitted. -/
structure AuditEntry where
  timestamp : Nat
  actor : String
  action : String
  details : String
  status_before : Option String
  status_after : Option String
deriving DecidableEq

/-- Document types referenced by the verified tool operations
(models.py class DocumentType; constructors not reached by these tools are omitted). -/
inductive DocumentType where
  | urla
  | paystub
  | w2
  | bankStatement
  | purchaseAgreement
  | creditReport
  | appraisal
  | floodCertification
  | employmentVerification
deriving DecidableEq

/-- Document processing status (models.py class DocumentStatus). -/
inductive DocumentStatus where
  | required
  | requested
  | received
  | underReview
  | approved
  | rejected
  | missing
  | expired
deriving DecidableEq

/-- Document tracking model (models.py class Document).  Optional review fields are
kept; free-form metadata is modelled as string key/value pairs. -/
structure Document where
  document_id : String
  document_type : DocumentType
  status : DocumentStatus
  received_date : Option Nat := none
  reviewed_date : Option Nat := none
  reviewed_by : Option String := none
  metadata : List (String × String) := []
deriving DecidableEq

/-- The slice of a credit report that order_credit_report reads
(models.py class CreditReport): score, bureau, report id, the number of hard
inquiries, and the number of derogatory items (only the lengths of those two lists
are consulted by the flag logic). -/
structure CreditReportData where
  credit_score : Nat
  bureau : String
  report_id : String
  inquiriesCount : Nat
  derogCount : Nat
deriving DecidableEq

/-- The slice of a borrower that the verified tools read (models.py class Borrower). -/
structure Borrower where
  ssn : String
  first_name : String
  last_name : String
  credit_report : Option CreditReportData := none
deriving DecidableEq

/-- Loan identity (models.py class LoanInfo restricted to the field the verified
operations read). -/
structure LoanInfo where
  loan_number : String
deriving DecidableEq

/-- The loan file aggregate (models.py class LoanFile), restricted to the fields the
verified operations read or write.  status is stored as its raw string value,
exactly as the source does under use_enum_values=True. -/
structure LoanFile where
  loan_info : LoanInfo
  status : String
  borrowers : List Borrower := []
  documents : List Document := []
  audit_trail : List AuditEntry := []
  flags : List String := []
  last_updated : Nat := 0
deriving DecidableEq

namespace LoanFile

/-- LoanFile.add_audit_entry (models.py lines 417-430): appends one AuditTrail entry
stamped with the current time and refreshes last_updated. -/
def add_audit_entry (lf : LoanFile) (now : Nat) (actor action details : String)
    (status_before : Option String := none) (status_after : Option String := none) :
    LoanFile :=
  { lf with
      audit_trail := lf.audit_trail ++
        [{ timestamp := now, actor := actor, action := action, details := details,
           status_before := status_before, status_after := status_after }],
      last_updated := now }

/-- LoanFile.update_status (models.py lines 432-446): records the old raw status
value, stores the new raw value, and adds exactly one status_change audit entry
carrying both. -/
def update_status (lf : LoanFile) (now : Nat) (new_status actor reason : String) :
    LoanFile :=
  let old_status := lf.status
  add_audit_entry { lf with status := new_status } now actor "status_change" reason
    (some old_status) (some new_status)

end LoanFile

/-! ## Record store state (file_manager.py) -/

/-- Contents of one persisted loan-file slot: either a well-formed serialized record
or bytes that json.load / LoanFile(**data) cannot parse. -/
inductive Content where
  | valid (lf : LoanFile)
  | corrupt
deriving DecidableEq

/-- First-match lookup in an association list (a directory of files keyed by loan
number, or a Python dict whose keys are distinct). -/
def lookupEntry {α : Type} (entries : List (String × α)) (key : String) : Option α :=
  match entries with
  | [] => none
  | (k, v) :: rest => if k = key then some v else lookupEntry rest key

/-- Write-through update of an association list: overwrite the first binding of the
key, or append a new binding. -/
def setEntry {α : Type} (entries : List (String × α)) (key : String) (v : α) :
    List (String × α) :=
  match entries with
  | [] => [(key, v)]
  | (k, w) :: rest => if k = key then (k, v) :: rest else (k, w) :: setEntry rest key v

/-- One timestamped backup file in the backups/ tier
(filename loan_backup_timestamp.json.gz); gzip compression is modelled as the
identity on the copied content. -/
structure BackupFile where
  loan_number : String
  timestamp : String
  content : Content
deriving DecidableEq

/-- The LoanFileManager storage state: active/ and archive/ record files, per-loan
audit-overflow archives (a missing archive file reads as the empty list), the
backups/ tier, and the per-loan write counters. -/
structure FS where
  active : List (String × Content) := []
  archive : List (String × Content) := []
  auditArchive : List (String × List AuditEntry) := []
  backups : List BackupFile := []
  writeCounts : List (String × Nat) := []
deriving DecidableEq

/-- LoanFileManager.MAX_AUDIT_ENTRIES (file_manager.py line 25). -/
def MAX_AUDIT_ENTRIES : Nat := 100

/-- LoanFileManager._rotate_audit_trail (file_manager.py lines 72-87), as a pure
function from (live trail, existing archive contents) to the new pair.  In Python:
if the trail exceeds MAX_AUDIT_ENTRIES, old_entries = trail[:-MAX] is appended to
the archive read back from disk and the live trail becomes trail[-MAX:]; otherwise
nothing changes. -/
def rotate_audit_trail (trail archive : List AuditEntry) :
    List AuditEntry × List AuditEntry :=
  if MAX_AUDIT_ENTRIES < trail.length then
    (trail.drop (trail.length - MAX_AUDIT_ENTRIES),
     archive ++ trail.take (trail.length - MAX_AUDIT_ENTRIES))
  else
    (trail, archive)

/-! ## Theorems for claims C4 and C9 -/

/-- C4: audit-trail rotation keeps the live trail within MAX_AUDIT_ENTRIES (100);
the removed entries are exactly the oldest length-100 entries in their original
order, appended to the end of the pre-existing archive with nothing duplicated or
dropped (removed ++ kept reassembles the original trail); when the trail is within
the cap, take/drop of 0 leave both the trail and the archive unchanged. -/
theorem audit_rotation_bounds_and_preserves (trail archive : List AuditEntry) :
    (rotate_audit_trail trail archive).1 =
        trail.drop (trail.length - MAX_AUDIT_ENTRIES) ∧
    (rotate_audit_trail trail archive).2 =
        archive ++ trail.take (trail.length - MAX_AUDIT_ENTRIES) ∧
    (rotate_audit_trail trail archive).1.length ≤ MAX_AUDIT_ENTRIES ∧
    trail.take (trail.length - MAX_AUDIT_ENTRIES) ++
        (rotate_audit_trail trail archive).1 = trail := by
  unfold rotate_audit_trail
  by_cases h : MAX_AUDIT_ENTRIES < trail.length
  · rw [if_pos h]
    refine ⟨rfl, rfl, ?_, List.take_append_drop _ _⟩
    rw [List.length_drop]
    omega
  · rw [if_neg h]
    have hz : trail.length - MAX_AUDIT_ENTRIES = 0 := by omega
    rw [hz]
    refine ⟨(List.drop_zero trail).symm, ?_, Nat.le_of_not_lt h, by rw [List.take_zero]; rfl⟩
    rw [List.take_zero, List.append_nil]

/-- C9: update_status sets the record status to the new value and appends exactly
one audit entry whose status_before is the status held before the call and whose
status_after is the new status; all other record fields are untouched. -/
theorem update_status_audits_transition (lf : LoanFile) (now : Nat)
    (new_status actor reason : String) :
    (lf.update_status now new_status actor reason).status = new_status ∧
    (lf.update_status now new_status actor reason).audit_trail =
      lf.audit_trail ++
        [{ timestamp := now, actor := actor, action := "status_change",
           details := reason, status_before := some lf.status,
           status_after := some new_status }] ∧
    (lf.update_status now new_status actor reason).audit_trail.length =
      lf.audit_trail.length + 1 ∧
    (lf.update_status now new_status actor reason).documents = lf.documents ∧
    (lf.update_status now new_status actor reason).flags = lf.flags ∧
    (lf.update_status now new_status actor reason).borrowers = lf.borrowers ∧
    (lf.update_status now new_status actor reason).loan_info = lf.loan_info := by
  refine ⟨rfl, rfl, ?_, rfl, rfl, rfl, rfl⟩
  simp [LoanFile.update_status, LoanFile.add_audit_entry]

/-! ## Store operations (file_manager.py) -/

/-- Observable storage-level actions that one save_loan_file call performs, in
program order.  renamed is in the alphabet so that the absence of any atomic
rename step in a save trace can be stated; save_loan_file never emits it. -/
inductive FsEvent where
  | auditArchiveWritten (loan_number : String)
  | backupCreated (loan_number timestamp : String)
  | activeWritten (loan_number : String)
  | renamed (src dst : String)
deriving DecidableEq

/-- Recognizer for backup-creation events. -/
def isBackupCreated : FsEvent → Bool
  | FsEvent.backupCreated _ _ => true
  | _ => false

/-- Recognizer for rename events. -/
def isRenamed : FsEvent → Bool
  | FsEvent.renamed _ _ => true
  | _ => false

/-- Increment the per-loan write counter (save_loan_file line 139:
write_counts[loan] = write_counts.get(loan, 0) + 1). -/
def incWriteCount (counts : List (String × Nat)) (loan_number : String) :
    List (String × Nat) :=
  setEntry counts loan_number ((lookupEntry counts loan_number).getD 0 + 1)

/-- LoanFileManager.save_loan_file (file_manager.py lines 125-153) together with
_create_backup (lines 102-115), returning the new storage state and the trace of
storage writes in program order.  Steps, exactly as in the source: (1) rotate the
audit trail, rewriting the per-loan audit archive if entries overflowed; (2) if an
active file for this loan exists, copy its current content to one new timestamped
backup file; (3) serialize the (rotated) record and write it directly to the active
path with open(path, "w") — there is no staging file and no rename; (4) bump the
write counter.  The printed write log, the file-size warning and the time-gated
backup purge (lines 140-151) have no effect on the record stores and are not
modelled. -/
def save_loan_file (fs : FS) (lf : LoanFile) (ts : String) : FS × List FsEvent :=
  let n := lf.loan_info.loan_number
  let rotated := rotate_audit_trail lf.audit_trail
      ((lookupEntry fs.auditArchive n).getD [])
  let lf1 := { lf with audit_trail := rotated.1 }
  let didRotate := decide (MAX_AUDIT_ENTRIES < lf.audit_trail.length)
  let fs1 := if didRotate then
      { fs with auditArchive := setEntry fs.auditArchive n rotated.2 } else fs
  let ev1 : List FsEvent :=
    if didRotate then [FsEvent.auditArchiveWritten n] else []
  match lookupEntry fs.active n with
  | some old =>
      let fs2 := { fs1 with
        backups := fs1.backups ++
          [({ loan_number := n, timestamp := ts, content := old } : BackupFile)] }
      let fs3 := { fs2 with active := setEntry fs2.active n (Content.valid lf1) }
      ({ fs3 with writeCounts := incWriteCount fs3.writeCounts n },
       ev1 ++ [FsEvent.backupCreated n ts, FsEvent.activeWritten n])
  | none =>
      let fs3 := { fs1 with active := setEntry fs1.active n (Content.valid lf1) }
      ({ fs3 with writeCounts := incWriteCount fs3.writeCounts n },
       ev1 ++ [FsEvent.activeWritten n])

/-- Load failure classification: the stored bytes could not be deserialized
(json.load or LoanFile(**data) raises). -/
inductive LoadError where
  | recordUnreadable
deriving DecidableEq

/-- Deserialize one stored file. -/
instance {ε α : Type} [DecidableEq ε] [DecidableEq α] : DecidableEq (Except ε α) :=
  fun x y =>
    match x, y with
    | Except.ok a, Except.ok b =>
        if h : a = b then isTrue (by rw [h])
        else isFalse (fun hh => h (Except.ok.inj hh))
    | Except.error e, Except.error f =>
        if h : e = f then isTrue (by rw [h])
        else isFalse (fun hh => h (Except.error.inj hh))
    | Except.ok _, Except.error _ => isFalse (fun hh => Except.noConfusion hh)
    | Except.error _, Except.ok _ => isFalse (fun hh => Except.noConfusion hh)

def parseContent : Content → Except LoadError (Option LoanFile)
  | Content.valid lf => Except.ok (some lf)
  | Content.corrupt => Except.error LoadError.recordUnreadable

/-- LoanFileManager.load_loan_file (file_manager.py lines 155-167): read the active
file; if it does not exist, fall back to the archive file; if neither exists,
return None; an existing but unparseable file propagates a deserialization error
rather than producing a default record.  No locking happens inside. -/
def load_loan_file (fs : FS) (loan_number : String) :
    Except LoadError (Option LoanFile) :=
  match lookupEntry fs.active loan_number with
  | some c => parseContent c
  | none =>
      match lookupEntry fs.archive loan_number with
      | some c => parseContent c
      | none => Except.ok none

/-- Contents the active file passes through while save_loan_file executes
open(file_path, "w") followed by json.dump (file_manager.py lines 136-137),
with the serialized record modelled as its character sequence: mode "w" first
truncates the file to empty, then the serialized text is appended left to right,
so the observable intermediate contents are exactly the prefixes of the new
content. -/
def saveActiveWriteStates (newContent : List Char) : List (List Char) :=
  (List.range (newContent.length + 1)).map (fun k => newContent.take k)

/-- Modelled from the spec: a save that uses a staging write plus atomic replace
(write-then-rename or equivalent) performs a rename step in its storage trace.
This is the spec-side definition that claim C5 asserts of save_loan_file; it is
compared against the trace the source actually produces. -/
def usesStagingReplace (events : List FsEvent) : Bool :=
  events.any isRenamed

/-! ## Theorems for claims C8, C6 and C5 -/

/-- C8: load_loan_file reads the active tier; when no active file exists it falls
back to the archive tier; when neither exists it returns the NotFound outcome
(None); and an existing but unparseable file in the tier consulted fails with the
record-unreadable classification instead of yielding an empty or default record. -/
theorem load_loan_file_tiers_and_failure (fs : FS) (n : String) :
    (lookupEntry fs.active n = none → lookupEntry fs.archive n = none →
      load_loan_file fs n = Except.ok none) ∧
    (∀ lf, lookupEntry fs.active n = some (Content.valid lf) →
      load_loan_file fs n = Except.ok (some lf)) ∧
    (∀ lf, lookupEntry fs.active n = none →
      lookupEntry fs.archive n = some (Content.valid lf) →
      load_loan_file fs n = Except.ok (some lf)) ∧
    (lookupEntry fs.active n = some Content.corrupt →
      load_loan_file fs n = Except.error LoadError.recordUnreadable) ∧
    (lookupEntry fs.active n = none →
      lookupEntry fs.archive n = some Content.corrupt →
      load_loan_file fs n = Except.error LoadError.recordUnreadable) := by
  refine ⟨?_, ?_, ?_, ?_, ?_⟩
  · intro h1 h2
    unfold load_loan_file
    rw [h1, h2]
  · intro lf h1
    unfold load_loan_file
    rw [h1]
    rfl
  · intro lf h1 h2
    unfold load_loan_file
    rw [h1, h2]
    rfl
  · intro h1
    unfold load_loan_file
    rw [h1]
    rfl
  · intro h1 h2
    unfold load_loan_file
    rw [h1, h2]
    rfl

/-- Sample record used to instantiate hypotheses of the store theorems. -/
def sampleLoanFile : LoanFile :=
  { loan_info := { loan_number := "LN-TEST01" }, status := "application_received" }

/-- Sample storage state with a corrupt active file for loan LN-BAD and a valid
active file for loan LN-TEST01. -/
def sampleFS : FS :=
  { active := [("LN-TEST01", Content.valid sampleLoanFile), ("LN-BAD", Content.corrupt)] }

/-- Witness for C8: on a concrete state whose active file for LN-BAD is corrupt,
load_loan_file fails with the record-unreadable classification. -/
theorem load_loan_file_tiers_and_failure_witness :
    lookupEntry sampleFS.active "LN-BAD" = some Content.corrupt ∧
    load_loan_file sampleFS "LN-BAD" = Except.error LoadError.recordUnreadable :=
  ⟨by decide, (load_loan_file_tiers_and_failure sampleFS "LN-BAD").2.2.2.1 (by decide)⟩

/-- C6: when an active file for the loan already exists, save_loan_file creates
exactly one new timestamped backup file holding the pre-overwrite content, and the
backup event precedes the overwrite of the active file in the storage trace; when
no active file exists, no backup is created. -/
theorem save_backup_before_overwrite (fs : FS) (lf : LoanFile) (ts : String) :
    (∀ c, lookupEntry fs.active lf.loan_info.loan_number = some c →
      (save_loan_file fs lf ts).1.backups = fs.backups ++
        [{ loan_number := lf.loan_info.loan_number, timestamp := ts, content := c }] ∧
      (save_loan_file fs lf ts).2.filter isBackupCreated =
        [FsEvent.backupCreated lf.loan_info.loan_number ts] ∧
      ∃ pre, (save_loan_file fs lf ts).2 =
          pre ++ [FsEvent.activeWritten lf.loan_info.loan_number] ∧
        FsEvent.backupCreated lf.loan_info.loan_number ts ∈ pre) ∧
    (lookupEntry fs.active lf.loan_info.loan_number = none →
      (save_loan_file fs lf ts).1.backups = fs.backups ∧
      (save_loan_file fs lf ts).2.filter isBackupCreated = []) := by
  constructor
  · intro c hc
    by_cases hrot : MAX_AUDIT_ENTRIES < lf.audit_trail.length
    · refine ⟨?_, ?_,
        ⟨[FsEvent.auditArchiveWritten lf.loan_info.loan_number,
          FsEvent.backupCreated lf.loan_info.loan_number ts], ?_, ?_⟩⟩ <;>
        simp [save_loan_file, hc, hrot, isBackupCreated]
    · refine ⟨?_, ?_,
        ⟨[FsEvent.backupCreated lf.loan_info.loan_number ts], ?_, ?_⟩⟩ <;>
        simp [save_loan_file, hc, hrot, isBackupCreated]
  · intro hc
    by_cases hrot : MAX_AUDIT_ENTRIES < lf.audit_trail.length <;>
      refine ⟨?_, ?_⟩ <;> simp [save_loan_file, hc, hrot, isBackupCreated]

/-- Witness for C6: saving the sample record over its existing active file adds
exactly one backup holding the old content, placed before the overwrite. -/
theorem save_backup_before_overwrite_witness :
    lookupEntry sampleFS.active sampleLoanFile.loan_info.loan_number =
      some (Content.valid sampleLoanFile) ∧
    (save_loan_file sampleFS sampleLoanFile "20260101_120000").1.backups =
      sampleFS.backups ++
        [{ loan_number := sampleLoanFile.loan_info.loan_number,
           timestamp := "20260101_120000",
           content := Content.valid sampleLoanFile }] :=
  ⟨by decide,
   ((save_backup_before_overwrite sampleFS sampleLoanFile "20260101_120000").1
      (Content.valid sampleLoanFile) (by decide)).1⟩

/-- Counterexample for C5: save_loan_file performs no staging write and no atomic
rename — on a concrete state with an existing active file its storage trace
contains no rename step — and a direct truncate-then-write admits an observable
intermediate content that is neither the old nor the new serialized record. -/
theorem save_staging_replace_counterexample :
    usesStagingReplace
      (save_loan_file sampleFS sampleLoanFile "20260101_120000").2 = false ∧
    [FsEvent.backupCreated "LN-TEST01" "20260101_120000",
     FsEvent.activeWritten "LN-TEST01"] =
      (save_loan_file sampleFS sampleLoanFile "20260101_120000").2 ∧
    [Char.ofNat 110] ∈ saveActiveWriteStates [Char.ofNat 110, Char.ofNat 101] ∧
    [Char.ofNat 110] ≠ [Char.ofNat 111] ∧
    [Char.ofNat 110] ≠ [Char.ofNat 110, Char.ofNat 101] := by
  refine ⟨by decide, by decide, ?_, by decide, by decide⟩
  decide

/-- C5 as amended: save_loan_file writes the serialized record directly to the
active path (truncate, then write in place) — its storage trace never contains a
rename and always ends by writing the active file — so an interruption mid-write
can leave the active file holding a content (for instance the empty truncated
state) that is neither the previous record nor the complete new record. -/
theorem save_direct_write_not_atomic (fs : FS) (lf : LoanFile) (ts : String)
    (oldContent newContent : List Char)
    (hold : oldContent ≠ []) (hnew : newContent ≠ []) :
    usesStagingReplace (save_loan_file fs lf ts).2 = false ∧
    FsEvent.activeWritten lf.loan_info.loan_number ∈ (save_loan_file fs lf ts).2 ∧
    ∃ s ∈ saveActiveWriteStates newContent, s ≠ oldContent ∧ s ≠ newContent := by
  refine ⟨?_, ?_, ⟨[], ?_, fun h => hold h.symm, fun h => hnew h.symm⟩⟩
  · by_cases hrot : MAX_AUDIT_ENTRIES < lf.audit_trail.length <;>
      cases hc : lookupEntry fs.active lf.loan_info.loan_number <;>
      simp [save_loan_file, usesStagingReplace, hc, hrot, isRenamed]
  · by_cases hrot : MAX_AUDIT_ENTRIES < lf.audit_trail.length <;>
      cases hc : lookupEntry fs.active lf.loan_info.loan_number <;>
      simp [save_loan_file, hc, hrot]
  · unfold saveActiveWriteStates
    refine List.mem_map.mpr ⟨0, ?_, List.take_zero _⟩
    exact List.mem_range.mpr (Nat.succ_pos _)

/-- Witness for the amended C5 on concrete contents: a save over the sample state
has no rename in its trace, writes the active file directly, and the truncated
empty state is a partial content distinct from both the old and the new record. -/
theorem save_direct_write_not_atomic_witness :
    ([Char.ofNat 111] ≠ ([] : List Char)) ∧
    ([Char.ofNat 110] ≠ ([] : List Char)) ∧
    (usesStagingReplace
        (save_loan_file sampleFS sampleLoanFile "20260101_130000").2 = false ∧
      FsEvent.activeWritten sampleLoanFile.loan_info.loan_number ∈
        (save_loan_file sampleFS sampleLoanFile "20260101_130000").2 ∧
      ∃ s ∈ saveActiveWriteStates [Char.ofNat 110],
        s ≠ [Char.ofNat 111] ∧ s ≠ [Char.ofNat 110]) :=
  ⟨by decide, by decide,
   save_direct_write_not_atomic sampleFS sampleLoanFile "20260101_130000"
     [Char.ofNat 111] [Char.ofNat 110] (by decide) (by decide)⟩

/-! ## Task operations (tools_loan_processor.py) -/

/-- The not-found early-return text shared by every tool operation
(tools_loan_processor.py, e.g. lines 40 and 181). -/
def notFoundMsg (loan_number : String) : String :=
  "❌ ERROR: Loan file " ++ loan_number ++ " not found"

/-- Early-return text of order_credit_report when the record has no borrowers
(tools_loan_processor.py line 184). -/
def noBorrowerMsg : String :=
  "❌ ERROR: No borrower information in loan file"

/-- Uncaught Python-level failures of a tool operation: a deserialization error
propagating out of load_loan_file, or an IndexError from indexing borrowers[0] on
an empty list. -/
inductive OpError where
  | recordUnreadable
  | indexError
deriving DecidableEq

/-- Outcome of the unlocked external credit-bureau call of order_credit_report:
either a report, or one of the three classified exceptions the function catches
(tools_loan_processor.py lines 284, 299, 313). -/
inductive CreditOutcome where
  | success (cr : CreditReportData)
  | timeout (msg : String)
  | maintenance (msg : String)
  | insufficientHistory (msg : String)
deriving DecidableEq

/-- Flag strings computed from the fresh credit report
(tools_loan_processor.py lines 227-235), in the order the source appends them. -/
def creditFlags (cr : CreditReportData) : List String :=
  (if cr.credit_score < 620 then ["⚠️  Credit score below 620 - may require LOE"] else []) ++
  (if cr.credit_score < 580 then ["🚨 Credit score below 580 - HIGH RISK"] else []) ++
  (if 3 < cr.inquiriesCount then ["⚠️  Multiple credit inquiries - LOE required"] else []) ++
  (if cr.derogCount ≠ 0 then
      ["⚠️  " ++ toString cr.derogCount ++ " derogatory item(s) found"] else [])

/-- The credit-report document appended by order_credit_report
(tools_loan_processor.py lines 257-269). -/
def creditReportDoc (docId : String) (cr : CreditReportData) (now : Nat) : Document :=
  { document_id := "DOC-" ++ docId,
    document_type := DocumentType.creditReport,
    status := DocumentStatus.approved,
    received_date := some now,
    reviewed_by := some "loan_processor",
    reviewed_date := some now,
    metadata := [("credit_score", toString cr.credit_score),
                 ("bureau", cr.bureau),
                 ("report_id", cr.report_id)] }

/-- The record as mutated by phase 3 of the success path of order_credit_report
(tools_loan_processor.py lines 249-277), before saving: the fresh report is
attached to the first borrower (borrowers[0].credit_report = credit_report), the
computed flags are extended onto the record flags, the credit document is
appended, and the status moves to credit_ordered with its audit entry. -/
def creditPhase3Record (lf2 : LoanFile) (b : Borrower) (rest : List Borrower)
    (cr : CreditReportData) (docId : String) (now : Nat) : LoanFile :=
  LoanFile.update_status
    { lf2 with
        borrowers := { b with credit_report := some cr } :: rest,
        flags := lf2.flags ++ creditFlags cr,
        documents := lf2.documents ++ [creditReportDoc docId cr now] }
    now "credit_ordered" "loan_processor"
    ("Credit report received - Score: " ++ toString cr.credit_score)

/-- Header of the order_credit_report report text; the narrative body of the
returned multi-line report is elided (it never feeds back into persisted state). -/
def creditReportMsg : String := "💳 ORDERING CREDIT REPORT"

/-- order_credit_report (tools_loan_processor.py lines 173-331).  Phase 1 (locked):
load the record from the store state fs1 and extract the borrower identity; the
enclosing for attempt in range(1, max_retries + 1) loop repeats this phase with no
break against an unchanged store, so it is modelled as a single load.  Phase 2
(unlocked): the external credit-bureau call, whose result or classified exception
is the outcome argument.  Phase 3 (locked): reload a fresh copy of the record from
the store state fs2 as it stands after the unlocked phase, mutate that copy
(attach the report to borrowers[0], extend flags, append the credit document,
update status), and save; each exception handler likewise reloads from fs2 before
appending its failure audit entry and saving, and skips the save when the reload
finds no record. -/
def order_credit_report (fs1 : FS) (loan_number : String) (outcome : CreditOutcome)
    (fs2 : FS) (docId : String) (now : Nat) (ts : String) :
    Except OpError (FS × String) :=
  match load_loan_file fs1 loan_number with
  | Except.error _ => Except.error OpError.recordUnreadable
  | Except.ok none => Except.ok (fs1, notFoundMsg loan_number)
  | Except.ok (some lf1) =>
    match lf1.borrowers with
    | [] => Except.ok (fs1, noBorrowerMsg)
    | _ :: _ =>
      match outcome with
      | CreditOutcome.success cr =>
        match load_loan_file fs2 loan_number with
        | Except.error _ => Except.error OpError.recordUnreadable
        | Except.ok none => Except.ok (fs2, notFoundMsg loan_number)
        | Except.ok (some lf2) =>
          match lf2.borrowers with
          | [] => Except.error OpError.indexError
          | b :: rest =>
            Except.ok
              ((save_loan_file fs2 (creditPhase3Record lf2 b rest cr docId now) ts).1,
               creditReportMsg)
      | CreditOutcome.timeout m =>
        match load_loan_file fs2 loan_number with
        | Except.error _ => Except.error OpError.recordUnreadable
        | Except.ok none => Except.ok (fs2, creditReportMsg)
        | Except.ok (some lf2) =>
          let lf3 := lf2.add_audit_entry now "loan_processor" "credit_order_failed"
              ("Timeout: " ++ m)
          Except.ok ((save_loan_file fs2 lf3 ts).1, creditReportMsg)
      | CreditOutcome.maintenance m =>
        match load_loan_file fs2 loan_number with
        | Except.error _ => Except.error OpError.recordUnreadable
        | Except.ok none => Except.ok (fs2, creditReportMsg)
        | Except.ok (some lf2) =>
          let lf3 := lf2.add_audit_entry now "loan_processor" "credit_order_failed"
              ("Maintenance: " ++ m)
          Except.ok ((save_loan_file fs2 lf3 ts).1, creditReportMsg)
      | CreditOutcome.insufficientHistory m =>
        match load_loan_file fs2 loan_number with
        | Except.error _ => Except.error OpError.recordUnreadable
        | Except.ok none => Except.ok (fs2, creditReportMsg)
        | Except.ok (some lf2) =>
          let lf3 := { lf2 with flags := lf2.flags ++
              ["Insufficient credit history - alternative docs needed"] }
          let lf4 := lf3.add_audit_entry now "loan_processor" "credit_order_failed"
              ("Insufficient history: " ++ m)
          Except.ok ((save_loan_file fs2 lf4 ts).1, creditReportMsg)

/-- The five required document types checked by verify_loan_documents with their
display names (tools_loan_processor.py lines 46-52). -/
def REQUIRED_DOCS : List (DocumentType × String) :=
  [(DocumentType.urla, "Uniform Residential Loan Application"),
   (DocumentType.paystub, "Recent Pay Stubs (2 months)"),
   (DocumentType.w2, "W-2 Forms (2 years)"),
   (DocumentType.bankStatement, "Bank Statements (2 months)"),
   (DocumentType.purchaseAgreement, "Purchase Agreement")]

/-- Accumulator of the verify_loan_documents required-document loop: the growing
document list, how many required documents counted as missing, and how many fresh
uuid placeholders were consumed. -/
structure VerifyAcc where
  docs : List Document
  missingCount : Nat
  fresh : Nat
deriving DecidableEq

/-- One iteration of the verify_loan_documents loop over required document types
(tools_loan_processor.py lines 58-76): if no document of the type exists, it is
missing and a placeholder with status REQUIRED is appended; an APPROVED first
match is complete, a RECEIVED one is pending review, and any other status counts
as missing without appending a placeholder. -/
def verifyDocStep (ids : Nat → String) (acc : VerifyAcc)
    (req : DocumentType × String) : VerifyAcc :=
  match acc.docs.find? (fun d => d.document_type == req.1) with
  | none =>
      { docs := acc.docs ++
          [{ document_id := "DOC-" ++ ids acc.fresh,
             document_type := req.1,
             status := DocumentStatus.required }],
        missingCount := acc.missingCount + 1,
        fresh := acc.fresh + 1 }
  | some d =>
      if d.status = DocumentStatus.approved then acc
      else if d.status = DocumentStatus.received then acc
      else { acc with missingCount := acc.missingCount + 1 }

/-- verify_loan_documents (tools_loan_processor.py lines 34-108): inside one lock
acquisition, load the record, sweep the five required document types (appending
REQUIRED placeholders for absent ones), set the status to documents_collecting or
documents_complete according to whether anything is missing, and save.  The
returned report text is elided down to its header; the not-found early return is
modelled verbatim. -/
def verify_loan_documents (fs : FS) (loan_number : String) (ids : Nat → String)
    (now : Nat) (ts : String) : Except OpError (FS × String) :=
  match load_loan_file fs loan_number with
  | Except.error _ => Except.error OpError.recordUnreadable
  | Except.ok none => Except.ok (fs, notFoundMsg loan_number)
  | Except.ok (some lf) =>
    let acc := REQUIRED_DOCS.foldl (verifyDocStep ids) ⟨lf.documents, 0, 0⟩
    let lf1 := { lf with documents := acc.docs }
    let lf2 :=
      if acc.missingCount ≠ 0 then
        lf1.update_status now "documents_collecting" "loan_processor"
          "Missing required documents"
      else
        lf1.update_status now "documents_complete" "loan_processor"
          "All required documents received"
    Except.ok ((save_loan_file fs lf2 ts).1,
      "📋 DOCUMENT VERIFICATION - Loan #" ++ loan_number)

/-! ## Theorems for claims C1 and C10 -/

/-- Looking up the key just written by setEntry yields the written value. -/
theorem lookupEntry_setEntry_self {α : Type} (entries : List (String × α))
    (key : String) (v : α) :
    lookupEntry (setEntry entries key v) key = some v := by
  induction entries with
  | nil => simp [setEntry, lookupEntry]
  | cons p rest ih =>
    obtain ⟨k, w⟩ := p
    by_cases h : k = key
    · simp [setEntry, lookupEntry, h]
    · simp [setEntry, lookupEntry, h, ih]

/-- After save_loan_file, the active file of the saved loan holds the saved record
with its audit trail rotated; every other field of the record is stored as given. -/
theorem save_loan_file_active (fs : FS) (lf : LoanFile) (ts : String) :
    lookupEntry (save_loan_file fs lf ts).1.active lf.loan_info.loan_number =
      some (Content.valid { lf with audit_trail :=
        (rotate_audit_trail lf.audit_trail
          ((lookupEntry fs.auditArchive lf.loan_info.loan_number).getD [])).1 }) := by
  by_cases hrot : MAX_AUDIT_ENTRIES < lf.audit_trail.length <;>
    cases hc : lookupEntry fs.active lf.loan_info.loan_number <;>
    simp [save_loan_file, hc, hrot, lookupEntry_setEntry_self]

/-- C1: on the success path of order_credit_report, the record that is mutated and
saved inside the second lock acquisition is the one freshly reloaded from the
store state fs2 reached during the unlocked external call — not the phase-1 copy
lf1, which the conclusion does not depend on.  Consequently a sibling write that
landed during the unlocked phase survives: the saved record extends the reloaded
record's flags and documents, rebuilds its borrowers from the reloaded list, and
carries the new credit_ordered status. -/
theorem credit_save_reflects_fresh_reload
    (fs1 : FS) (loan_number : String) (cr : CreditReportData) (fs2 : FS)
    (docId : String) (now : Nat) (ts : String) (lf1 lf2 : LoanFile)
    (h1 : load_loan_file fs1 loan_number = Except.ok (some lf1))
    (hb1 : lf1.borrowers ≠ [])
    (h2 : load_loan_file fs2 loan_number = Except.ok (some lf2))
    (hb2 : lf2.borrowers ≠ [])
    (hkey : lf2.loan_info.loan_number = loan_number) :
    ∃ fsOut savedLf,
      order_credit_report fs1 loan_number (CreditOutcome.success cr) fs2 docId now ts =
        Except.ok (fsOut, creditReportMsg) ∧
      lookupEntry fsOut.active loan_number = some (Content.valid savedLf) ∧
      savedLf.flags = lf2.flags ++ creditFlags cr ∧
      savedLf.documents = lf2.documents ++ [creditReportDoc docId cr now] ∧
      (∃ b rest, lf2.borrowers = b :: rest ∧
        savedLf.borrowers = { b with credit_report := some cr } :: rest) ∧
      savedLf.status = "credit_ordered" := by
  cases hbb1 : lf1.borrowers with
  | nil => exact absurd hbb1 hb1
  | cons b1 r1 =>
    cases hbb2 : lf2.borrowers with
    | nil => exact absurd hbb2 hb2
    | cons b2 r2 =>
      refine ⟨(save_loan_file fs2 (creditPhase3Record lf2 b2 r2 cr docId now) ts).1,
        { creditPhase3Record lf2 b2 r2 cr docId now with
            audit_trail := (rotate_audit_trail
              (creditPhase3Record lf2 b2 r2 cr docId now).audit_trail
              ((lookupEntry fs2.auditArchive
                (creditPhase3Record lf2 b2 r2 cr docId now).loan_info.loan_number).getD
                  [])).1 },
        ?_, ?_, rfl, rfl, ⟨b2, r2, rfl, rfl⟩, rfl⟩
      · simp [order_credit_report, h1, h2, hbb1, hbb2]
      · rw [← hkey]
        exact save_loan_file_active fs2 (creditPhase3Record lf2 b2 r2 cr docId now) ts

/-- Borrower used by the concrete instantiations below. -/
def witBorrower : Borrower :=
  { ssn := "123456789", first_name := "Alice", last_name := "Smith" }

/-- The record as phase 1 of order_credit_report sees it. -/
def witPhase1File : LoanFile :=
  { loan_info := { loan_number := "LN-42" }, status := "application_received",
    borrowers := [witBorrower] }

/-- The record after a sibling task wrote a flag during the unlocked phase. -/
def witSiblingFile : LoanFile :=
  { loan_info := { loan_number := "LN-42" }, status := "documents_complete",
    borrowers := [witBorrower], flags := ["Flood insurance required"] }

/-- Store state at phase 1. -/
def witFs1 : FS := { active := [("LN-42", Content.valid witPhase1File)] }

/-- Store state at phase 3, carrying the sibling write. -/
def witFs2 : FS := { active := [("LN-42", Content.valid witSiblingFile)] }

/-- Credit report returned by the external call in the concrete run. -/
def witCreditReport : CreditReportData :=
  { credit_score := 700, bureau := "Experian", report_id := "RPT-1",
    inquiriesCount := 1, derogCount := 0 }

/-- Witness for C1: in a concrete run where a sibling flag landed between the two
lock acquisitions, the delayed order_credit_report saves a record that still
carries the sibling flag. -/
theorem credit_save_reflects_fresh_reload_witness :
    load_loan_file witFs1 "LN-42" = Except.ok (some witPhase1File) ∧
    witPhase1File.borrowers ≠ [] ∧
    load_loan_file witFs2 "LN-42" = Except.ok (some witSiblingFile) ∧
    witSiblingFile.borrowers ≠ [] ∧
    witSiblingFile.loan_info.loan_number = "LN-42" ∧
    (∃ fsOut savedLf,
      order_credit_report witFs1 "LN-42" (CreditOutcome.success witCreditReport)
          witFs2 "AB12CD34" 5 "20260101_140000" =
        Except.ok (fsOut, creditReportMsg) ∧
      lookupEntry fsOut.active "LN-42" = some (Content.valid savedLf) ∧
      savedLf.flags = witSiblingFile.flags ++ creditFlags witCreditReport ∧
      savedLf.documents =
        witSiblingFile.documents ++ [creditReportDoc "AB12CD34" witCreditReport 5] ∧
      (∃ b rest, witSiblingFile.borrowers = b :: rest ∧
        savedLf.borrowers = { b with credit_report := some witCreditReport } :: rest) ∧
      savedLf.status = "credit_ordered") :=
  ⟨by decide, by decide, by decide, by decide, by decide,
   credit_save_reflects_fresh_reload witFs1 "LN-42" witCreditReport witFs2 "AB12CD34"
     5 "20260101_140000" witPhase1File witSiblingFile (by decide) (by decide)
     (by decide) (by decide) (by decide)⟩

/-- C10: when no loan file exists for the given loan number (neither active nor
archived), verify_loan_documents and order_credit_report return the not-found
error string instead of raising, and leave the storage state exactly as it was:
the returned state is the input state and no save happens. -/
theorem missing_record_returns_error_without_save
    (fs : FS) (loan_number : String) (ids : Nat → String) (now : Nat) (ts : String)
    (outcome : CreditOutcome) (fs2 : FS) (docId : String)
    (h : load_loan_file fs loan_number = Except.ok none) :
    verify_loan_documents fs loan_number ids now ts =
      Except.ok (fs, notFoundMsg loan_number) ∧
    order_credit_report fs loan_number outcome fs2 docId now ts =
      Except.ok (fs, notFoundMsg loan_number) := by
  constructor
  · unfold verify_loan_documents
    rw [h]
  · unfold order_credit_report
    rw [h]

/-- Empty storage state: no active, archived, or backup files at all. -/
def emptyFS : FS := {}

/-- Fresh-identifier supply for concrete runs of verify_loan_documents. -/
def witIds : Nat → String := fun _ => "00000000"

/-- Witness for C10: on the empty store, both operations return the not-found
error string for loan LN-NONE and hand back the empty store unchanged. -/
theorem missing_record_returns_error_without_save_witness :
    load_loan_file emptyFS "LN-NONE" = Except.ok none ∧
    (verify_loan_documents emptyFS "LN-NONE" witIds 0 "20260101_150000" =
        Except.ok (emptyFS, notFoundMsg "LN-NONE") ∧
      order_credit_report emptyFS "LN-NONE" (CreditOutcome.timeout "slow") emptyFS
          "AB12CD34" 0 "20260101_150000" =
        Except.ok (emptyFS, notFoundMsg "LN-NONE")) :=
  ⟨by decide,
   missing_record_returns_error_without_save emptyFS "LN-NONE" witIds 0
     "20260101_150000" (CreditOutcome.timeout "slow") emptyFS "AB12CD34" (by decide)⟩

/-! ## Lock and external-call shape of the task operations (tools_loan_processor.py)

Each definition below records, in program order, the per-entity lock operations,
record loads/saves and external simulator calls that one task operation performs
on its success path.  Where tools_loan_processor.py defines a function twice, the
later definition is the one Python binds; the earlier one is kept with a v1
suffix. -/

/-- Lock, store and external-call actions of one task operation. -/
inductive LockEv where
  | acquire
  | release
  | loadRecord
  | saveRecord
  | externalCall
deriving DecidableEq

/-- order_credit_report (lines 173-331), success path: the phase-1 locked section
(acquire, load, release) is run max_retries times by the for loop — which
contains no break — then the unlocked credit-bureau call, then the phase-3 locked
section that reloads, mutates, saves and releases. -/
def order_credit_report_lockEvents (max_retries : Nat) : List LockEv :=
  (List.replicate max_retries
    [LockEv.acquire, LockEv.loadRecord, LockEv.release]).flatten ++
  [LockEv.externalCall] ++
  [LockEv.acquire, LockEv.loadRecord, LockEv.saveRecord, LockEv.release]

/-- verify_loan_documents (lines 34-108): a single locked load-mutate-save section
with no external call. -/
def verify_loan_documents_lockEvents : List LockEv :=
  [LockEv.acquire, LockEv.loadRecord, LockEv.saveRecord, LockEv.release]

/-- validate_document_quality (lines 111-170): single locked section, no external
call. -/
def validate_document_quality_lockEvents : List LockEv :=
  [LockEv.acquire, LockEv.loadRecord, LockEv.saveRecord, LockEv.release]

/-- calculate_loan_ratios (lines 333-499): a single locked load-compute-save
section; all ratio computation is in memory and no external simulator is called. -/
def calculate_loan_ratios_lockEvents : List LockEv :=
  [LockEv.acquire, LockEv.loadRecord, LockEv.saveRecord, LockEv.release]

/-- First (shadowed) order_appraisal definition (lines 508-608): two-phase — load
under the lock, release, call the appraisal simulator unlocked, re-acquire,
reload, save, release. -/
def order_appraisal_v1_lockEvents : List LockEv :=
  [LockEv.acquire, LockEv.loadRecord, LockEv.release,
   LockEv.externalCall,
   LockEv.acquire, LockEv.loadRecord, LockEv.saveRecord, LockEv.release]

/-- Effective order_appraisal definition (lines 1108-1193): the appraisal
simulator is called inside the single locked section, before the save. -/
def order_appraisal_lockEvents : List LockEv :=
  [LockEv.acquire, LockEv.loadRecord, LockEv.externalCall,
   LockEv.saveRecord, LockEv.release]

/-- receive_appraisal (lines 611-713, redefined identically at 1196-1298): the
appraisal-completion simulator is called inside the locked section. -/
def receive_appraisal_lockEvents : List LockEv :=
  [LockEv.acquire, LockEv.loadRecord, LockEv.externalCall,
   LockEv.saveRecord, LockEv.release]

/-- First (shadowed) order_flood_certification definition (lines 716-818):
two-phase with the flood-zone check unlocked. -/
def order_flood_certification_v1_lockEvents : List LockEv :=
  [LockEv.acquire, LockEv.loadRecord, LockEv.release,
   LockEv.externalCall,
   LockEv.acquire, LockEv.loadRecord, LockEv.saveRecord, LockEv.release]

/-- Effective order_flood_certification definition (lines 1301-1386): the
flood-zone check runs inside the locked section. -/
def order_flood_certification_lockEvents : List LockEv :=
  [LockEv.acquire, LockEv.loadRecord, LockEv.externalCall,
   LockEv.saveRecord, LockEv.release]

/-- verify_employment (lines 821-926, defined once): two-phase with the
verification call unlocked. -/
def verify_employment_lockEvents : List LockEv :=
  [LockEv.acquire, LockEv.loadRecord, LockEv.release,
   LockEv.externalCall,
   LockEv.acquire, LockEv.loadRecord, LockEv.saveRecord, LockEv.release]

/-- submit_to_underwriting (lines 928-1034, redefined identically at 1388-1494):
single locked section, no external call. -/
def submit_to_underwriting_lockEvents : List LockEv :=
  [LockEv.acquire, LockEv.loadRecord, LockEv.saveRecord, LockEv.release]

/-- clear_underwriting_conditions (lines 1037-1103): single locked section, no
external call. -/
def clear_underwriting_conditions_lockEvents : List LockEv :=
  [LockEv.acquire, LockEv.loadRecord, LockEv.saveRecord, LockEv.release]

/-- collect_documents (lines 1497-1643): single locked section, no external call. -/
def collect_documents_lockEvents : List LockEv :=
  [LockEv.acquire, LockEv.loadRecord, LockEv.saveRecord, LockEv.release]

/-- True when some external call of the trace happens at positive lock depth,
i.e. while the per-entity lock is held. -/
def externalCallWhileLocked (depth : Nat) : List LockEv → Bool
  | [] => false
  | LockEv.acquire :: rest => externalCallWhileLocked (depth + 1) rest
  | LockEv.release :: rest => externalCallWhileLocked (depth - 1) rest
  | LockEv.externalCall :: rest =>
      decide (0 < depth) || externalCallWhileLocked depth rest
  | _ :: rest => externalCallWhileLocked depth rest

/-- True when the trace contains any external call at all. -/
def hasExternalCall (tr : List LockEv) : Bool :=
  tr.any (fun e => e == LockEv.externalCall)

/-- Counterexample for C2: the effective order_appraisal (second definition, lines
1108-1193), receive_appraisal (lines 611-713) and the effective
order_flood_certification (lines 1301-1386) all invoke their external simulator
while holding the per-entity lock, so the claim that no operation holds the lock
across the external call — explicitly including order_appraisal and
receive_appraisal — is false on the source. -/
theorem lock_held_during_external_call_counterexample :
    externalCallWhileLocked 0 order_appraisal_lockEvents = true ∧
    externalCallWhileLocked 0 receive_appraisal_lockEvents = true ∧
    externalCallWhileLocked 0 order_flood_certification_lockEvents = true := by
  decide

/-- C2 as amended: the two-phase unlocked-external-call pattern holds for
order_credit_report (at its default max_retries = 2), verify_employment, and the
first (shadowed) definitions of order_appraisal and order_flood_certification;
but the effective order_appraisal and order_flood_certification definitions and
receive_appraisal perform their external simulator call while holding the
per-entity lock; calculate_loan_ratios and the remaining operations make no
external call at all and run as a single locked load-mutate-save section. -/
theorem two_phase_locking_by_operation :
    externalCallWhileLocked 0 (order_credit_report_lockEvents 2) = false ∧
    externalCallWhileLocked 0 order_appraisal_v1_lockEvents = false ∧
    externalCallWhileLocked 0 order_flood_certification_v1_lockEvents = false ∧
    externalCallWhileLocked 0 verify_employment_lockEvents = false ∧
    externalCallWhileLocked 0 order_appraisal_lockEvents = true ∧
    externalCallWhileLocked 0 receive_appraisal_lockEvents = true ∧
    externalCallWhileLocked 0 order_flood_certification_lockEvents = true ∧
    hasExternalCall calculate_loan_ratios_lockEvents = false ∧
    hasExternalCall verify_loan_documents_lockEvents = false ∧
    hasExternalCall validate_document_quality_lockEvents = false ∧
    hasExternalCall submit_to_underwriting_lockEvents = false ∧
    hasExternalCall clear_underwriting_conditions_lockEvents = false ∧
    hasExternalCall collect_documents_lockEvents = false := by
  decide

/-! ## Task coordinator (task_coordinator.py) -/

namespace TaskCoordinator

/-- One named task (task_coordinator.py class Task).  The tool_function callable
is not scheduling data: get_concurrent_tasks never reads it, and
execute_concurrent_tasks receives the awaited behavior of
task.tool_function(loan_number) as an explicit argument below. -/
structure Task where
  name : String
  dependencies : List String
  concurrent_safe : Bool
  estimated_duration : String
deriving DecidableEq

/-- TaskCoordinator.get_concurrent_tasks (task_coordinator.py lines 115-135):
iterate the task table in insertion order, skip tasks whose key is already in
completed_tasks, and keep those whose dependencies are all completed and that are
concurrent_safe. -/
def get_concurrent_tasks (completed_tasks : List String)
    (all_tasks : List (String × Task)) : List Task :=
  (all_tasks.filter (fun p =>
    !(completed_tasks.contains p.1) &&
    p.2.dependencies.all (fun dep => completed_tasks.contains dep) &&
    p.2.concurrent_safe)).map Prod.snd

/-- TaskCoordinator.LOAN_PROCESSOR_TASKS (task_coordinator.py lines 24-67). -/
def LOAN_PROCESSOR_TASKS : List (String × Task) :=
  [("order_credit_report",
    { name := "order_credit_report", dependencies := [],
      concurrent_safe := true, estimated_duration := "2-5s" }),
   ("order_appraisal",
    { name := "order_appraisal", dependencies := [],
      concurrent_safe := true, estimated_duration := "1-2s" }),
   ("order_flood_certification",
    { name := "order_flood_certification", dependencies := [],
      concurrent_safe := true, estimated_duration := "1s" }),
   ("verify_employment",
    { name := "verify_employment", dependencies := [],
      concurrent_safe := true, estimated_duration := "1-3s" }),
   ("calculate_loan_ratios",
    { name := "calculate_loan_ratios", dependencies := ["order_credit_report"],
      concurrent_safe := false, estimated_duration := "1s" }),
   ("submit_to_underwriting",
    { name := "submit_to_underwriting",
      dependencies := ["calculate_loan_ratios", "verify_loan_documents"],
      concurrent_safe := false, estimated_duration := "1s" })]

/-- TaskCoordinator.UNDERWRITER_TASKS (task_coordinator.py lines 69-113). -/
def UNDERWRITER_TASKS : List (String × Task) :=
  [("run_automated_underwriting",
    { name := "run_automated_underwriting", dependencies := [],
      concurrent_safe := false, estimated_duration := "2-4s" }),
   ("review_credit_profile",
    { name := "review_credit_profile", dependencies := ["run_automated_underwriting"],
      concurrent_safe := true, estimated_duration := "1s" }),
   ("review_income_employment",
    { name := "review_income_employment",
      dependencies := ["run_automated_underwriting"],
      concurrent_safe := true, estimated_duration := "1s" }),
   ("review_assets_reserves",
    { name := "review_assets_reserves", dependencies := ["run_automated_underwriting"],
      concurrent_safe := true, estimated_duration := "1s" }),
   ("review_property_appraisal",
    { name := "review_property_appraisal",
      dependencies := ["run_automated_underwriting"],
      concurrent_safe := true, estimated_duration := "1s" }),
   ("issue_underwriting_conditions",
    { name := "issue_underwriting_conditions",
      dependencies := ["review_credit_profile", "review_income_employment",
                       "review_assets_reserves", "review_property_appraisal"],
      concurrent_safe := false, estimated_duration := "1s" })]

/-- A Boolean contains check on a string list is membership. -/
theorem contains_iff_mem (l : List String) (a : String) :
    l.contains a = true ↔ a ∈ l := by
  simp [List.contains, List.elem_iff]

/-- C3: when every table key matches its task's name (as in both shipped task
tables), get_concurrent_tasks returns exactly the tasks of the table that are not
already completed, have every dependency completed, and are concurrent_safe — in
particular it never returns a completed task or one with an unsatisfied
dependency. -/
theorem get_concurrent_tasks_exact (completed_tasks : List String)
    (all_tasks : List (String × Task)) (t : Task)
    (hkeys : ∀ p ∈ all_tasks, Task.name p.2 = p.1) :
    t ∈ get_concurrent_tasks completed_tasks all_tasks ↔
      (∃ p ∈ all_tasks, p.2 = t) ∧
      t.name ∉ completed_tasks ∧
      (∀ dep ∈ t.dependencies, dep ∈ completed_tasks) ∧
      t.concurrent_safe = true := by
  simp only [get_concurrent_tasks, List.mem_map, List.mem_filter,
    Bool.and_eq_true, Bool.not_eq_true', List.all_eq_true]
  constructor
  · rintro ⟨p, ⟨hp, ⟨⟨hc, hdeps⟩, hsafe⟩⟩, rfl⟩
    refine ⟨⟨p, hp, rfl⟩, ?_, ?_, hsafe⟩
    · rw [hkeys p hp, ← contains_iff_mem, hc]
      simp
    · intro dep hdep
      exact (contains_iff_mem _ _).mp (hdeps dep hdep)
  · rintro ⟨⟨p, hp, rfl⟩, hcn, hdeps, hsafe⟩
    refine ⟨p, ⟨hp, ⟨⟨?_, ?_⟩, hsafe⟩⟩, rfl⟩
    · rw [← hkeys p hp]
      rw [Bool.eq_false_iff]
      intro h
      exact hcn ((contains_iff_mem _ _).mp h)
    · intro dep hdep
      exact (contains_iff_mem _ _).mpr (hdeps dep hdep)

/-- Classified exception raised by awaiting a task's tool function.  With
asyncio.gather(..., return_exceptions=True) it becomes the task's collected entry
instead of cancelling the sibling tasks. -/
inductive TaskError where
  | failure (msg : String)
deriving DecidableEq

/-- TaskCoordinator.execute_concurrent_tasks (task_coordinator.py lines 137-145):
results = await asyncio.gather(*(task.tool_function(loan_number) for task in
tasks), return_exceptions=True) collects, positionally, each task's result or
raised exception, then the comprehension pairs task.name with the result in zip
order.  The run argument is the awaited behavior of task.tool_function; each
entry of the returned mapping depends only on its own task, so one task's
exception cannot suppress another task's entry. -/
def execute_concurrent_tasks (tasks : List Task) (loan_number : String)
    (run : Task → String → Except TaskError String) :
    List (String × Except TaskError String) :=
  tasks.map (fun task => (task.name, run task loan_number))

end TaskCoordinator

namespace TaskCoordinator

/-- The order_appraisal scheduling entry, used to instantiate the C3 theorem. -/
def appraisalTask : Task :=
  { name := "order_appraisal", dependencies := [],
    concurrent_safe := true, estimated_duration := "1-2s" }

/-- Witness for C3 on the shipped loan-processor table with order_credit_report
completed: membership of order_appraisal in the ready batch is exactly the
claimed condition. -/
theorem get_concurrent_tasks_exact_witness :
    (∀ p ∈ LOAN_PROCESSOR_TASKS, Task.name p.2 = p.1) ∧
    (appraisalTask ∈
        get_concurrent_tasks ["order_credit_report"] LOAN_PROCESSOR_TASKS ↔
      (∃ p ∈ LOAN_PROCESSOR_TASKS, p.2 = appraisalTask) ∧
      appraisalTask.name ∉ ["order_credit_report"] ∧
      (∀ dep ∈ appraisalTask.dependencies, dep ∈ ["order_credit_report"]) ∧
      appraisalTask.concurrent_safe = true) :=
  ⟨by decide,
   get_concurrent_tasks_exact ["order_credit_report"] LOAN_PROCESSOR_TASKS
     appraisalTask (by decide)⟩

/-- C7: for tasks with distinct names (as in the shipped tables),
execute_concurrent_tasks returns one entry per given task, keyed by the task
name and holding that task's own outcome — the result it produced or the
classified exception it raised — for every behavior run of the tool functions;
in particular one task's exception never changes, suppresses or prevents any
sibling's entry. -/
theorem execute_concurrent_tasks_collects (tasks : List Task) (loan_number : String)
    (run : Task → String → Except TaskError String)
    (hnodup : (tasks.map Task.name).Nodup) :
    (execute_concurrent_tasks tasks loan_number run).length = tasks.length ∧
    ∀ t ∈ tasks,
      lookupEntry (execute_concurrent_tasks tasks loan_number run) t.name =
        some (run t loan_number) := by
  constructor
  · simp [execute_concurrent_tasks]
  · revert hnodup
    induction tasks with
    | nil =>
      intro _ t ht
      simp at ht
    | cons hd tl ih =>
      intro hnd t ht
      have hsplit : (∀ x ∈ tl, ¬Task.name x = hd.name) ∧
          (tl.map Task.name).Nodup := by simpa using hnd
      rcases List.mem_cons.mp ht with rfl | htl
      · simp [execute_concurrent_tasks, lookupEntry]
      · have hne : ¬(hd.name = t.name) := fun he =>
          hsplit.1 t htl he.symm
        simpa [execute_concurrent_tasks, lookupEntry, hne] using
          ih hsplit.2 t htl

/-- Tool behavior for the concrete batch below: the credit pull raises a
classified failure while every other task completes normally. -/
def witRun : Task → String → Except TaskError String := fun task loan_number =>
  if task.name = "order_credit_report" then
    Except.error (TaskError.failure "credit bureau timeout")
  else Except.ok (task.name ++ " completed for " ++ loan_number)

/-- Witness for C7: running the whole shipped loan-processor batch with the
credit pull failing still yields one entry per task, each holding its own
outcome. -/
theorem execute_concurrent_tasks_collects_witness :
    ((LOAN_PROCESSOR_TASKS.map Prod.snd).map Task.name).Nodup ∧
    ((execute_concurrent_tasks (LOAN_PROCESSOR_TASKS.map Prod.snd) "LN-TEST01"
        witRun).length = (LOAN_PROCESSOR_TASKS.map Prod.snd).length ∧
      ∀ t ∈ LOAN_PROCESSOR_TASKS.map Prod.snd,
        lookupEntry (execute_concurrent_tasks (LOAN_PROCESSOR_TASKS.map Prod.snd)
            "LN-TEST01" witRun) t.name = some (witRun t "LN-TEST01")) :=
  ⟨by decide,
   execute_concurrent_tasks_collects (LOAN_PROCESSOR_TASKS.map Prod.snd)
     "LN-TEST01" witRun (by decide)⟩

end TaskCoordinator
